import Mathlib

/-!
# Verification of `scripts/manage.py` and `scripts/manage_plugins.py`

A shallow embedding, in Lean 4, of the pure string- and control-flow logic of
the two Python scripts of this repository:

* `scripts/manage.py` — the operator-facing CLI that wraps docker compose,
  `pg_dump`/`psql` backup and restore, and update checking;
* `scripts/manage_plugins.py` — a module that imports a plugin-registration
  API from `manage` and registers the same commands through it.

Python strings are modelled as Lean `String` (operating on `String.data`,
a `List Char`); Python `str.endswith` / `str.startswith` / `in` /
`str.strip` / `str.lower` / `str.splitlines` / `str.split('\n')` are
translated below.  Subprocess calls are modelled by their command lines
(`List String`) and by `Option`-valued captured output (`none` standing for
a raised exception).  Each `def` mirrors the cited Python source line for
line; theorems then settle the specification's claims about that source.
-/

namespace ManagePy

/-- Python `s.endswith(suf)`: `suf` is a suffix of `s`. -/
def pyEndsWith (s suf : String) : Bool :=
  suf.data.isSuffixOf s.data

/-- Python `s.startswith(pre)`: `pre` is a prefix of `s`. -/
def pyStartsWith (s pre : String) : Bool :=
  pre.data.isPrefixOf s.data

/-- Helper for Python's substring test `sub in s` on `List Char`:
`sub` is a prefix of some suffix of the text. -/
def substringAux (sub : List Char) : List Char → Bool
  | [] => sub.isEmpty
  | c :: rest => sub.isPrefixOf (c :: rest) || substringAux sub rest

/-- Python `sub in s` for strings: contiguous substring containment. -/
def pyContains (s sub : String) : Bool :=
  substringAux sub.data s.data

/-- The whitespace characters removed by Python `str.strip()`. -/
def pyIsSpace (c : Char) : Bool :=
  c = ' ' || c = '\t' || c = '\n' || c = '\r' || c = '\x0b' || c = '\x0c'

/-- Python `s.strip()`: drop whitespace from both ends. -/
def pyStrip (s : String) : String :=
  String.mk (((s.data.dropWhile pyIsSpace).reverse.dropWhile pyIsSpace).reverse)

/-- Python `s.lower()` (ASCII case fold; all characters the scripts test are
ASCII). -/
def pyLower (s : String) : String :=
  String.mk (s.data.map Char.toLower)

/-- Helper for Python `str.splitlines()`: split on `\n`, `\r\n` and `\r`,
with no trailing empty line. -/
def splitlinesAux : List Char → List Char → List (List Char)
  | [], acc => if acc.isEmpty then [] else [acc.reverse]
  | '\r' :: '\n' :: rest, acc => acc.reverse :: splitlinesAux rest []
  | '\r' :: rest, acc => acc.reverse :: splitlinesAux rest []
  | '\n' :: rest, acc => acc.reverse :: splitlinesAux rest []
  | c :: rest, acc => splitlinesAux rest (c :: acc)

/-- Python `s.splitlines()`. -/
def pySplitlines (s : String) : List String :=
  (splitlinesAux s.data []).map String.mk

/-!
## Basic lemmas about the string primitives
-/

theorem pyEndsWith_iff (s suf : String) :
    pyEndsWith s suf = true ↔ suf.data <:+ s.data := by
  simp [pyEndsWith, List.isSuffixOf_iff_suffix]

theorem pyEndsWith_append (s t : String) : pyEndsWith (s ++ t) t = true := by
  rw [pyEndsWith_iff, String.data_append]
  exact List.suffix_append s.data t.data

/-- A string ending in `".sql"` never ends in `".gz"` (the last characters
differ). -/
theorem not_pyEndsWith_gz_of_append_sql (s : String) :
    pyEndsWith (s ++ ".sql") ".gz" = false := by
  by_contra h
  rw [Bool.not_eq_false, pyEndsWith_iff, String.data_append] at h
  obtain ⟨t, ht⟩ := h
  have hz := congrArg List.getLast? ht
  have h1 : (t ++ (".gz" : String).data).getLast? = some 'z' := by
    show (t ++ ['.', 'g', 'z']).getLast? = some 'z'
    rw [show t ++ ['.', 'g', 'z'] = (t ++ ['.', 'g']) ++ ['z'] by simp]
    exact List.getLast?_concat _
  have h2 : (s.data ++ (".sql" : String).data).getLast? = some 'l' := by
    show (s.data ++ ['.', 's', 'q', 'l']).getLast? = some 'l'
    rw [show s.data ++ ['.', 's', 'q', 'l'] = (s.data ++ ['.', 's', 'q']) ++ ['l'] by simp]
    exact List.getLast?_concat _
  rw [h1, h2] at hz
  simp at hz

/-- Ending in `".sql.gz"` implies ending in `".gz"`. -/
theorem pyEndsWith_gz_of_sql_gz (s : String) :
    pyEndsWith s ".sql.gz" = true → pyEndsWith s ".gz" = true := by
  rw [pyEndsWith_iff, pyEndsWith_iff]
  intro h
  exact List.IsSuffix.trans (by decide) h

/-- The disjunction `endswith('.gz') or endswith('.sql.gz')` collapses to
`endswith('.gz')`. -/
theorem endsWith_gz_or_sql_gz (s : String) :
    (pyEndsWith s ".gz" || pyEndsWith s ".sql.gz") = pyEndsWith s ".gz" := by
  cases h : pyEndsWith s ".sql.gz" with
  | false => simp
  | true => simp [pyEndsWith_gz_of_sql_gz s h]

/-!
## `cmd_backup` (manage.py lines 164-231)
-/

/-- The `strftime` format used for the default backup file name
(`manage.py` line 191). -/
def backup_timestamp_format : String := "%Y-%m-%dT%H-%M-%S"

/-- `argparse` default for the backup `--compress` flag: `set_defaults(...,
compress=True)` with `--no-compress` storing `False` (`manage.py` lines
1012-1013). -/
def backup_compress_default : Bool := true

/-- The default backup file name (`manage.py` lines 192-194):
`backup-<timestamp>.sql`, plus `.gz` when compressing. -/
def default_backup_filename (timestamp : String) (compress : Bool) : String :=
  let filename := "backup-" ++ timestamp ++ ".sql"
  if compress then filename ++ ".gz" else filename

/-- The default backup output path (`manage.py` lines 189-195): the default
file name inside the project's `backups/` directory. -/
def default_backup_path (project_dir timestamp : String) (compress : Bool) : String :=
  project_dir ++ "/backups/" ++ default_backup_filename timestamp compress

/-- Extension normalisation of a user-supplied `--output` path
(`manage.py` lines 178-186). -/
def backup_output_path (output : String) (compress : Bool) : String :=
  if compress && !(pyEndsWith output ".gz" || pyEndsWith output ".sql.gz") then
    (if !pyEndsWith output ".sql" then output ++ ".sql" else output) ++ ".gz"
  else if !compress && !pyEndsWith output ".sql" then
    output ++ ".sql"
  else
    output

/-!
## `cmd_restore` (manage.py lines 234-295) and the plugin variant
(manage_plugins.py lines 104-146)
-/

/-- Compressed-dump detection in `manage.py`'s `cmd_restore` (line 277):
`backup_path.endswith('.gz') or backup_path.endswith('.sql.gz')`. -/
def cmd_restore_is_compressed (backup_path : String) : Bool :=
  pyEndsWith backup_path ".gz" || pyEndsWith backup_path ".sql.gz"

/-- The shell command `cmd_restore` runs inside the `db` container
(`manage.py` lines 279-284): `gunzip | psql` for a compressed dump,
`psql -f` otherwise. -/
def restore_shell_cmd (backup_path container_path : String) : String :=
  if cmd_restore_is_compressed backup_path then
    "PGPASSWORD=\"${POSTGRES_PASSWORD}\" gunzip < " ++ container_path
      ++ " | psql -U \"${POSTGRES_USER}\" -d \"${POSTGRES_DB}\""
  else
    "PGPASSWORD=\"${POSTGRES_PASSWORD}\" psql -U \"${POSTGRES_USER}\" -d \"${POSTGRES_DB}\" -f "
      ++ container_path

/-- C2: for every backup file path, `cmd_restore` treats the file as
compressed if and only if the path ends with `".gz"` (the extra `".sql.gz"`
test adds nothing), and accordingly runs `gunzip < file | psql` for
compressed files and `psql -f file` for uncompressed files. -/
theorem cmd_restore_compression_detection (backup_path container_path : String) :
    cmd_restore_is_compressed backup_path = pyEndsWith backup_path ".gz" ∧
    (pyEndsWith backup_path ".gz" = true →
      restore_shell_cmd backup_path container_path =
        "PGPASSWORD=\"${POSTGRES_PASSWORD}\" gunzip < " ++ container_path
          ++ " | psql -U \"${POSTGRES_USER}\" -d \"${POSTGRES_DB}\"") ∧
    (pyEndsWith backup_path ".gz" = false →
      restore_shell_cmd backup_path container_path =
        "PGPASSWORD=\"${POSTGRES_PASSWORD}\" psql -U \"${POSTGRES_USER}\" -d \"${POSTGRES_DB}\" -f "
          ++ container_path) := by
  refine ⟨endsWith_gz_or_sql_gz backup_path, ?_, ?_⟩ <;> intro h
  · simp [restore_shell_cmd, cmd_restore_is_compressed, h]
  · have hs : pyEndsWith backup_path ".sql.gz" = false := by
      have habs := endsWith_gz_or_sql_gz backup_path
      rw [h] at habs
      exact (Bool.or_eq_false_iff.mp habs).2
    simp [restore_shell_cmd, cmd_restore_is_compressed, h, hs]

/-- C3: for every invocation of `cmd_backup` without `--output`, the backup
is written to the `backups/` directory under the name
`backup-<timestamp>.sql`, with the timestamp formatted as
`%Y-%m-%dT%H-%M-%S`, and the suffix `.gz` is appended exactly when
compression is enabled (compression is the default). -/
theorem cmd_backup_default_naming (project_dir timestamp : String) :
    backup_compress_default = true ∧
    backup_timestamp_format = "%Y-%m-%dT%H-%M-%S" ∧
    default_backup_path project_dir timestamp true =
      project_dir ++ "/backups/" ++ ("backup-" ++ timestamp ++ ".sql" ++ ".gz") ∧
    default_backup_path project_dir timestamp false =
      project_dir ++ "/backups/" ++ ("backup-" ++ timestamp ++ ".sql") ∧
    (∀ compress : Bool,
      pyEndsWith (default_backup_filename timestamp compress) ".gz" = compress) := by
  refine ⟨rfl, rfl, rfl, rfl, ?_⟩
  intro compress
  cases compress with
  | true => exact pyEndsWith_append ("backup-" ++ timestamp ++ ".sql") ".gz"
  | false => exact not_pyEndsWith_gz_of_append_sql ("backup-" ++ timestamp)

/-- C8: for every user-supplied `--output` path in `cmd_backup`, the final
output path ends with `".gz"` when compression is enabled and with `".sql"`
when compression is disabled; the extension is appended when missing, and a
path already carrying it is left unchanged. -/
theorem cmd_backup_output_extension (output : String) :
    pyEndsWith (backup_output_path output true) ".gz" = true ∧
    pyEndsWith (backup_output_path output false) ".sql" = true ∧
    (pyEndsWith output ".gz" = true → backup_output_path output true = output) ∧
    (pyEndsWith output ".sql" = true → backup_output_path output false = output) := by
  have habsorb := endsWith_gz_or_sql_gz output
  refine ⟨?_, ?_, ?_, ?_⟩
  · cases hgz : pyEndsWith output ".gz" with
    | true => simp [backup_output_path, hgz, habsorb.trans hgz]
    | false =>
      rw [hgz] at habsorb
      cases hsql : pyEndsWith output ".sql" with
      | true =>
        simp [backup_output_path, hgz, hsql, Bool.or_eq_false_iff.mp habsorb,
          pyEndsWith_append]
      | false =>
        simp [backup_output_path, hgz, hsql, Bool.or_eq_false_iff.mp habsorb,
          pyEndsWith_append]
  · cases hsql : pyEndsWith output ".sql" with
    | true => simp [backup_output_path, hsql]
    | false => simp [backup_output_path, hsql, pyEndsWith_append]
  · intro hgz
    simp [backup_output_path, hgz, habsorb.trans hgz]
  · intro hsql
    simp [backup_output_path, hsql]

/-!
## `_is_service_running` (manage.py lines 298-305)
-/

/-- `_is_service_running` (`manage.py` lines 298-305).  `ps_output` is the
captured stdout of `docker compose ps --services --status running` after
Python's `cp.stdout or ""`; `none` models the subprocess raising an
exception, which the `except` clause maps to `False`.  The body mirrors
`[s.strip() for s in (cp.stdout or "").splitlines() if s.strip()]` followed
by `service_name in running_services`. -/
def is_service_running (ps_output : Option String) (service_name : String) : Bool :=
  match ps_output with
  | none => false
  | some out =>
    let running_services :=
      ((pySplitlines out).filter (fun s => pyStrip s != "")).map pyStrip
    running_services.contains service_name

/-!
## `_wait_for_service_ready` (manage.py lines 715-722)

Wall time is discretised to whole seconds: the loop polls at elapsed times
`0, 1, 2, ...` (the body of each iteration is one `_is_service_running`
poll followed by `time.sleep(1)`), and the `while time.time() - start <
timeout` guard admits exactly the polls with elapsed time `< timeout`.
`running n` is what the poll at elapsed time `n` reports. -/

/-- The polling loop of `_wait_for_service_ready`; structurally recursive on
the remaining time, so it terminates for every timeout. -/
def wait_loop (running : Nat → Bool) (timeout elapsed : Nat) : Bool :=
  if elapsed < timeout then
    if running elapsed then true else wait_loop running timeout (elapsed + 1)
  else false
termination_by timeout - elapsed

/-- `_wait_for_service_ready` (`manage.py` lines 715-722). -/
def wait_for_service_ready (running : Nat → Bool) (timeout : Nat) : Bool :=
  wait_loop running timeout 0

theorem wait_loop_true_iff (running : Nat → Bool) (timeout elapsed : Nat) :
    wait_loop running timeout elapsed = true ↔
      ∃ n, elapsed ≤ n ∧ n < timeout ∧ running n = true := by
  generalize hk : timeout - elapsed = k
  induction k generalizing elapsed with
  | zero =>
    rw [wait_loop]
    have hge : ¬ elapsed < timeout := by omega
    simp only [if_neg hge]
    constructor
    · intro h
      exact absurd h (by simp)
    · rintro ⟨n, h1, h2, -⟩
      omega
  | succ k ih =>
    rw [wait_loop]
    have hlt : elapsed < timeout := by omega
    rw [if_pos hlt]
    by_cases hr : running elapsed = true
    · rw [if_pos hr]
      exact iff_of_true rfl ⟨elapsed, Nat.le_refl _, hlt, hr⟩
    · rw [if_neg hr]
      have hr' : running elapsed = false := by simpa using hr
      rw [ih (elapsed + 1) (by omega)]
      constructor
      · rintro ⟨n, h1, h2, h3⟩
        exact ⟨n, by omega, h2, h3⟩
      · rintro ⟨n, h1, h2, h3⟩
        refine ⟨n, ?_, h2, h3⟩
        rcases Nat.eq_or_lt_of_le h1 with he | hl
        · rw [← he, hr'] at h3
          exact absurd h3 (by simp)
        · omega

/-!
## `fatal` (manage.py lines 27-29) and `main` (manage.py lines 1104-1118)
-/

/-- How one invocation of a dispatched command terminates, as `main`'s
`try/except` ladder distinguishes the cases: normal completion,
`KeyboardInterrupt`, `SystemExit` carrying its `code` attribute (an integer
or `None`), or any other unhandled exception with its message. -/
inductive PyTermination where
  | normal : PyTermination
  | keyboardInterrupt : PyTermination
  | systemExit : Option Int → PyTermination
  | unhandled : String → PyTermination
deriving DecidableEq

/-- The default for `fatal`'s `exit_code` parameter (`manage.py` line 27). -/
def fatal_default_exit_code : Int := 1

/-- `fatal` (`manage.py` lines 27-29): the line printed to stderr, paired
with the `SystemExit` that `sys.exit(exit_code)` raises. -/
def fatal (message : String) (exit_code : Int) : String × PyTermination :=
  ("Error: " ++ message, PyTermination.systemExit (some exit_code))

/-- `main` (`manage.py` lines 1104-1118) mapped over how the dispatched
command terminated: `return 0` on normal completion, `130` on
`KeyboardInterrupt`, `int(getattr(e, "code", 1) or 0)` on `SystemExit`
(a `SystemExit` always carries `code`; `or 0` maps `None` and `0` to `0`),
and `1` on any other exception. -/
def main_exit_status : PyTermination → Int
  | .normal => 0
  | .keyboardInterrupt => 130
  | .systemExit c =>
    match c with
    | none => 0
    | some v => if v == 0 then 0 else v
  | .unhandled _ => 1

/-- C5: `_is_service_running` returns True iff the service name equals one of
the stripped non-blank lines of the captured output of
`docker compose ps --services --status running`, and returns False whenever
running that subprocess raises an exception. -/
theorem is_service_running_spec (service_name out : String) :
    (is_service_running (some out) service_name = true ↔
      ∃ line ∈ pySplitlines out, pyStrip line ≠ "" ∧ service_name = pyStrip line) ∧
    is_service_running none service_name = false := by
  constructor
  · simp only [is_service_running, List.contains_iff_exists_mem_beq, List.mem_map,
      List.mem_filter, beq_iff_eq, bne_iff_ne, ne_eq]
    constructor
    · rintro ⟨x, ⟨line, ⟨hmem, hne⟩, hx⟩, he⟩
      exact ⟨line, hmem, hne, by rw [he, hx]⟩
    · rintro ⟨line, hmem, hne, he⟩
      exact ⟨pyStrip line, ⟨line, ⟨hmem, hne⟩, rfl⟩, he⟩
  · rfl

/-- C4: `_wait_for_service_ready` terminates for every service and
non-negative integer timeout (the loop is structurally recursive on the
remaining time); it returns True iff some poll within `timeout` seconds
reports the service running, and returns False exactly when `timeout`
seconds elapse with no poll reporting the service running. -/
theorem wait_for_service_ready_spec (running : Nat → Bool) (timeout : Nat) :
    (wait_for_service_ready running timeout = true ↔
      ∃ n, n < timeout ∧ running n = true) ∧
    (wait_for_service_ready running timeout = false ↔
      ∀ n, n < timeout → running n = false) := by
  have h := wait_loop_true_iff running timeout 0
  constructor
  · rw [wait_for_service_ready, h]
    constructor
    · rintro ⟨n, -, h2, h3⟩
      exact ⟨n, h2, h3⟩
    · rintro ⟨n, h2, h3⟩
      exact ⟨n, Nat.zero_le n, h2, h3⟩
  · rw [wait_for_service_ready, Bool.eq_false_iff, Ne, h]
    push_neg
    constructor
    · intro hall n hn
      have := hall n (Nat.zero_le n) hn
      simpa using this
    · intro hall n _ hn
      simp [hall n hn]

/-- C7: `fatal` prints `Error: <message>` to stderr and terminates the
process with the given exit code (default 1); `main` converts every
termination into an integer exit status — 0 on normal completion, 130 on
`KeyboardInterrupt`, the `SystemExit` code from `fatal`/argparse, and 1 on
any other unhandled exception. -/
theorem fatal_and_main_exit_status (message : String) (exit_code : Int) (err : String) :
    fatal message exit_code =
      ("Error: " ++ message, PyTermination.systemExit (some exit_code)) ∧
    fatal_default_exit_code = 1 ∧
    main_exit_status PyTermination.normal = 0 ∧
    main_exit_status PyTermination.keyboardInterrupt = 130 ∧
    main_exit_status (fatal message exit_code).2 = exit_code ∧
    main_exit_status (PyTermination.unhandled err) = 1 := by
  refine ⟨rfl, rfl, rfl, rfl, ?_, rfl⟩
  show (if exit_code == 0 then 0 else exit_code) = exit_code
  by_cases h : exit_code = 0 <;> simp [h]

/-!
## `_check_docker_security` output filtering (manage.py lines 632-663)
-/

/-- Helper for Python `s.split(sep)` with a one-character separator: keeps
every field, including empty ones and a trailing empty field. -/
def pySplitCharAux (sep : Char) : List Char → List Char → List (List Char)
  | [], acc => [acc.reverse]
  | c :: rest, acc =>
    if c == sep then acc.reverse :: pySplitCharAux sep rest []
    else pySplitCharAux sep rest (c :: acc)

/-- Python `s.split('\n')` (`manage.py` line 638). -/
def pySplitNewline (s : String) : List String :=
  (pySplitCharAux '\n' s.data []).map String.mk

/-- First `continue` of the filtering loop (`manage.py` lines 643-646):
informational messages about storing/indexing. -/
def scout_skip_storing (line : String) : Bool :=
  pyStartsWith (pyStrip line) "..." || pyContains (pyLower line) "storing" ||
    pyContains (pyLower line) "indexing"

/-- Second `continue` (lines 648-650): success checkmarks for
stored/indexed. -/
def scout_skip_checkmark (line : String) : Bool :=
  pyStartsWith (pyStrip line) "✓" &&
    (pyContains (pyLower line) "stored" || pyContains (pyLower line) "indexed")

/-- Third `continue` (lines 652-654): Docker Scout version-update
notices. -/
def scout_skip_new_version (line : String) : Bool :=
  pyContains (pyLower line) "new version" &&
    (pyContains (pyLower line) "docker scout" || pyContains (pyLower line) "scout-cli")

/-- Fourth `continue` (lines 655-657): informational `i ` lines mentioning
a version. -/
def scout_skip_info_version (line : String) : Bool :=
  pyStartsWith (pyStrip line) "i " && pyContains (pyLower line) "version"

/-- The `relevant_lines` the filtering loop of `_check_docker_security`
collects and prints (`manage.py` lines 638-663): iterate over
`full_output.split('\n')` in order, `continue` past the four skip
conditions, and keep a line when `line.strip()` is non-empty. -/
def scout_relevant_lines (full_output : String) : List String :=
  (pySplitNewline full_output).filter (fun line =>
    !scout_skip_storing line && !scout_skip_checkmark line &&
      !scout_skip_new_version line && !scout_skip_info_version line &&
      pyStrip line != "")

/-- The exclusion predicate exactly as the claim states it: a line is
excluded when any of the four skip categories applies. -/
def scout_excluded_line (line : String) : Bool :=
  scout_skip_storing line || scout_skip_checkmark line ||
    scout_skip_new_version line || scout_skip_info_version line

/-- The claim's description of the printed lines: the non-blank lines of the
scan output, in order, excluding the excluded categories. -/
def scout_spec_lines (full_output : String) : List String :=
  (pySplitNewline full_output).filter (fun line =>
    pyStrip line != "" && !scout_excluded_line line)

/-!
## `confirm` (manage.py lines 140-145) and the `cmd_restore` command traces
-/

/-- The user's reply to `confirm`'s prompt: a line read from stdin, or
end-of-input (`EOFError`). -/
inductive UserAnswer where
  | eof : UserAnswer
  | line : String → UserAnswer

/-- `confirm` (`manage.py` lines 140-145): strip and lowercase the reply and
accept exactly `"y"` and `"yes"`; `EOFError` yields `False`. -/
def confirm : UserAnswer → Bool
  | .eof => false
  | .line s =>
    let ans := pyLower (pyStrip s)
    ans == "y" || ans == "yes"

/-- `_get_compose_cmd` (`manage.py` lines 22-24), with
`COMPOSE_FILE = f'docker-compose.{ENVIRONMENT}.yml'` (line 19). -/
def get_compose_cmd (environment : String) : List String :=
  ["docker", "compose", "-f", "docker-compose.yml", "-f",
    "docker-compose." ++ environment ++ ".yml"]

/-- The final path component: `os.path.basename` / `pathlib.PurePath.name`
for the resolved (absolute, slash-free-tail) paths both scripts pass — the
characters after the last `'/'`. -/
def path_name (p : String) : String :=
  String.mk ((p.data.reverse.takeWhile (fun c => c != '/')).reverse)

/-- The docker command lines `cmd_restore` (`manage.py` lines 255-295)
issues after its file validation and running-service checks, in order: the
`compose cp` of the backup into the container, the schema drop, the restore
command and the temp-file cleanup — or none at all when `args.yes` is false
and `confirm` declines (the function prints "Aborted." and returns at lines
256-259, before any docker command). -/
def cmd_restore_commands (environment : String) (yes : Bool) (ans : UserAnswer)
    (backup_path : String) : List (List String) :=
  let compose := get_compose_cmd environment
  let container_path := "/tmp/" ++ path_name backup_path
  if !yes && !confirm ans then []
  else
    [compose ++ ["cp", backup_path, "db:" ++ container_path],
     compose ++ ["exec", "-T", "db", "sh", "-c",
       "PGPASSWORD=\"${POSTGRES_PASSWORD}\" psql -U \"${POSTGRES_USER}\" -d \"${POSTGRES_DB}\" -c \"DROP SCHEMA public CASCADE; CREATE SCHEMA public;\""],
     compose ++ ["exec", "-T", "db", "sh", "-c",
       restore_shell_cmd backup_path ("/tmp/" ++ path_name backup_path)],
     compose ++ ["exec", "-T", "db", "rm", "-f", container_path]]

/-!
## The plugin variant of restore detection (manage_plugins.py line 137)
-/

/-- Python `str.rfind(c)` over the characters of a string: the highest index
holding `c`, or `-1` when `c` is absent.  Computed through the first
occurrence in the reversed list. -/
def rev_find (c : Char) : List Char → Option Nat
  | [] => none
  | x :: xs => if x == c then some 0 else (rev_find c xs).map (· + 1)

/-- `str.rfind` itself: highest index or `-1`. -/
def str_rfind (cs : List Char) (c : Char) : Int :=
  match rev_find c cs.reverse with
  | none => -1
  | some j => (cs.length : Int) - 1 - j

/-- `pathlib.PurePath.suffix` as CPython implements it: with `name` the
final path component and `i = name.rfind('.')`, the extension is `name[i:]`
when `0 < i < len(name) - 1`, else `""`. -/
def path_suffix (p : String) : String :=
  let name := path_name p
  let i := str_rfind name.data '.'
  if 0 < i ∧ i < (name.length : Int) - 1 then String.mk (name.data.drop i.toNat)
  else ""

/-- Compressed-dump detection in `manage_plugins.py`'s `cmd_restore`
(line 137): `backup_path.suffix == ".gz" or
str(backup_path).endswith(".sql.gz")`. -/
def plugins_is_compressed (backup_path : String) : Bool :=
  path_suffix backup_path == ".gz" || pyEndsWith backup_path ".sql.gz"

/-- The shell command the plugin `cmd_restore` runs
(`manage_plugins.py` lines 137-143). -/
def plugins_restore_shell_cmd (backup_path container_path : String) : String :=
  if plugins_is_compressed backup_path then
    "PGPASSWORD=\"${POSTGRES_PASSWORD}\" gunzip < " ++ container_path
      ++ " | psql -U \"${POSTGRES_USER}\" -d \"${POSTGRES_DB}\""
  else
    "PGPASSWORD=\"${POSTGRES_PASSWORD}\" psql -U \"${POSTGRES_USER}\" -d \"${POSTGRES_DB}\" -f "
      ++ container_path

/-- The docker command lines the plugin `cmd_restore`
(`manage_plugins.py` lines 104-146) issues after its checks, mirroring
`cmd_restore_commands`: none when confirmation is declined (lines 117-120),
else copy, schema drop, restore and cleanup. -/
def plugins_cmd_restore_commands (environment : String) (yes : Bool) (ans : UserAnswer)
    (backup_path : String) : List (List String) :=
  let compose := get_compose_cmd environment
  let container_path := "/tmp/" ++ path_name backup_path
  if !yes && !confirm ans then []
  else
    [compose ++ ["cp", backup_path, "db:" ++ container_path],
     compose ++ ["exec", "-T", "db", "sh", "-c",
       "PGPASSWORD=\"${POSTGRES_PASSWORD}\" psql -U \"${POSTGRES_USER}\" -d \"${POSTGRES_DB}\" -c \"DROP SCHEMA public CASCADE; CREATE SCHEMA public;\""],
     compose ++ ["exec", "-T", "db", "sh", "-c",
       plugins_restore_shell_cmd backup_path ("/tmp/" ++ path_name backup_path)],
     compose ++ ["exec", "-T", "db", "rm", "-f", container_path]]

/-!
## The `manage` module's namespace versus the plugin import block
-/

/-- The module-level names `scripts/manage.py` binds (its two configuration
constants and every top-level `def`, in file order): the names an
`import from manage` can resolve. -/
def manage_module_names : List String :=
  ["ENVIRONMENT", "COMPOSE_FILE", "_get_compose_cmd", "fatal", "run",
   "cmd_build", "cmd_up", "cmd_down", "cmd_logs", "cmd_status",
   "_choose_target_service", "cmd_shell", "confirm", "cmd_clean",
   "cmd_stats", "cmd_backup", "cmd_restore", "_is_service_running",
   "_require_service_running", "_print_status", "_print_success",
   "_print_warning", "_print_error", "_check_docker_images",
   "_check_npm_audit", "_run_ncu_check", "_check_npm_dependencies",
   "_get_project_images", "_check_docker_scout_version",
   "_check_docker_security", "cmd_check_updates",
   "_wait_for_service_ready", "cmd_update_npm_packages",
   "cmd_db_create_user", "cmd_db_reset_password", "cmd_db_delete_user",
   "cmd_db_list", "cmd_db_summary", "cmd_db_search", "make_parser", "main"]

/-- The names the import block at the top of `scripts/manage_plugins.py`
(lines 19-31) asks the `manage` module for. -/
def manage_plugins_imports : List String :=
  ["ProjectConfig", "CommandContext", "register_command",
   "register_subcommand", "print_status", "print_success", "print_warning",
   "print_error", "fatal", "confirm", "run"]

/-- C1 (code bug): the import block of `manage_plugins.py` cannot succeed
against `manage.py` — eight of the eleven imported names are not bound at
module level in `manage.py` (only `fatal`, `confirm` and `run` are), so the
very first name already raises `ImportError`. -/
theorem manage_plugins_import_missing_names :
    manage_plugins_imports.filter (fun n => !manage_module_names.contains n) =
      ["ProjectConfig", "CommandContext", "register_command",
       "register_subcommand", "print_status", "print_success",
       "print_warning", "print_error"] ∧
    manage_plugins_imports.all manage_module_names.contains = false ∧
    ["fatal", "confirm", "run"].all manage_module_names.contains = true := by
  refine ⟨?_, ?_, ?_⟩ <;> decide

/-- C6: in the vulnerabilities-found branch, the lines
`_check_docker_security` prints are exactly the non-blank lines of the scan
output, in order, excluding the four skip categories (leading `...`,
storing/indexing messages, stored/indexed checkmarks, Scout version-update
notices, and informational `i ` version lines). -/
theorem check_docker_security_filtering (full_output : String) :
    scout_relevant_lines full_output = scout_spec_lines full_output := by
  unfold scout_relevant_lines scout_spec_lines
  apply List.filter_congr
  intro line _
  unfold scout_excluded_line
  cases scout_skip_storing line <;> cases scout_skip_checkmark line <;>
    cases scout_skip_new_version line <;> cases scout_skip_info_version line <;>
    cases pyStrip line != "" <;> rfl

/-- C10: for every invocation of `cmd_restore` without `--yes` where the
user's answer (stripped, lowercased) is not `"y"` or `"yes"` — including
end-of-input, which `confirm` maps to False — the function returns before
issuing any command: no file is copied into the container and the DROP
SCHEMA / restore commands are never run.  This holds for both `manage.py`'s
and `manage_plugins.py`'s `cmd_restore`. -/
theorem cmd_restore_declined_aborts (environment backup_path : String) (ans : UserAnswer) :
    confirm UserAnswer.eof = false ∧
    (∀ t : String, confirm (UserAnswer.line t) = true ↔
      pyLower (pyStrip t) = "y" ∨ pyLower (pyStrip t) = "yes") ∧
    (confirm ans = false →
      cmd_restore_commands environment false ans backup_path = []) ∧
    (confirm ans = false →
      plugins_cmd_restore_commands environment false ans backup_path = []) := by
  refine ⟨rfl, ?_, ?_, ?_⟩
  · intro t
    simp [confirm]
  · intro h
    simp [cmd_restore_commands, h]
  · intro h
    simp [plugins_cmd_restore_commands, h]

/-!
## Relating the two compressed-dump detection predicates (C9)
-/

/-- The final path component is a character-wise suffix of the path. -/
theorem path_name_data_suffix (p : String) : (path_name p).data <:+ p.data := by
  show (p.data.reverse.takeWhile (fun c => c != '/')).reverse <:+ p.data
  have h1 : p.data.reverse.takeWhile (fun c => c != '/') <+: p.data.reverse :=
    List.takeWhile_prefix _
  have h2 := List.reverse_suffix.mpr h1
  rw [List.reverse_reverse] at h2
  exact h2

/-- When a path ends in `".gz"`, so does its final component (the three
final characters contain no `'/'`). -/
theorem path_name_endsWith_gz (p : String) (h : pyEndsWith p ".gz" = true) :
    pyEndsWith (path_name p) ".gz" = true := by
  rw [pyEndsWith_iff] at h ⊢
  obtain ⟨t, ht⟩ := h
  show (".gz" : String).data <:+ (p.data.reverse.takeWhile (fun c => c != '/')).reverse
  have hrev : p.data.reverse = 'z' :: 'g' :: '.' :: t.reverse := by
    rw [← ht]
    simp
  rw [hrev]
  have htake : List.takeWhile (fun c => c != '/') ('z' :: 'g' :: '.' :: t.reverse) =
      'z' :: 'g' :: '.' :: List.takeWhile (fun c => c != '/') t.reverse := by
    rw [List.takeWhile_cons_of_pos (by decide), List.takeWhile_cons_of_pos (by decide),
      List.takeWhile_cons_of_pos (by decide)]
  rw [htake]
  have hflip : ('z' :: 'g' :: '.' :: List.takeWhile (fun c => c != '/') t.reverse).reverse =
      (List.takeWhile (fun c => c != '/') t.reverse).reverse ++ ['.', 'g', 'z'] := by
    simp
  rw [hflip]
  exact List.suffix_append _ _

theorem rev_find_gz (rest : List Char) :
    rev_find '.' ('z' :: 'g' :: '.' :: rest) = some 2 := rfl

/-- `rfind('.')` on `ws ++ ".gz"` finds the dot before `gz`: index
`len(ws)`. -/
theorem str_rfind_append_gz (ws : List Char) :
    str_rfind (ws ++ ['.', 'g', 'z']) '.' = (ws.length : Int) := by
  unfold str_rfind
  have h : (ws ++ ['.', 'g', 'z']).reverse = 'z' :: 'g' :: '.' :: ws.reverse := by
    simp
  rw [h, rev_find_gz]
  simp only [List.length_append, List.length_cons, List.length_nil]
  push_cast
  ring

/-- When the final component is `ws ++ ".gz"` with `ws` non-empty,
`pathlib`'s `suffix` is `".gz"`. -/
theorem path_suffix_eq_gz (p : String) (ws : List Char) (hws : ws ≠ [])
    (h : (path_name p).data = ws ++ ['.', 'g', 'z']) :
    path_suffix p = ".gz" := by
  have hlen : ((path_name p).length : Int) = (ws.length : Int) + 3 := by
    have he : (path_name p).length = (ws ++ ['.', 'g', 'z']).length :=
      congrArg List.length h
    rw [he]
    simp only [List.length_append, List.length_cons, List.length_nil]
    push_cast
    ring
  have hpos : 0 < ws.length := List.length_pos.mpr hws
  have hfind : str_rfind (path_name p).data '.' = (ws.length : Int) := by
    rw [h]
    exact str_rfind_append_gz ws
  simp only [path_suffix]
  rw [hfind, hlen]
  rw [if_pos (by constructor <;> omega)]
  rw [h, Int.toNat_natCast, List.drop_left]

/-- The plugin detection only fires on paths that end in `".gz"`. -/
theorem plugins_is_compressed_endsWith (p : String)
    (h : plugins_is_compressed p = true) : pyEndsWith p ".gz" = true := by
  rw [plugins_is_compressed, Bool.or_eq_true] at h
  rcases h with h | h
  · have hs : path_suffix p = ".gz" := by simpa using h
    by_cases hc : 0 < str_rfind (path_name p).data '.' ∧
        str_rfind (path_name p).data '.' < ((path_name p).length : Int) - 1
    · have hval : path_suffix p =
          String.mk ((path_name p).data.drop (str_rfind (path_name p).data '.').toNat) := by
        simp only [path_suffix]
        rw [if_pos hc]
      rw [hval] at hs
      have hdata : (path_name p).data.drop (str_rfind (path_name p).data '.').toNat =
          ['.', 'g', 'z'] := congrArg String.data hs
      have h1 : ['.', 'g', 'z'] <:+ (path_name p).data :=
        hdata ▸ List.drop_suffix _ _
      rw [pyEndsWith_iff]
      exact h1.trans (path_name_data_suffix p)
    · have hval : path_suffix p = "" := by
        simp only [path_suffix]
        rw [if_neg hc]
      rw [hval] at hs
      exact absurd hs (by decide)
  · exact pyEndsWith_gz_of_sql_gz p h

/-- A path ending in `".gz"` whose final component is not the bare dotfile
`".gz"` has `pathlib` suffix `".gz"`. -/
theorem path_suffix_of_endsWith_gz (p : String) (hname : path_name p ≠ ".gz")
    (h : pyEndsWith p ".gz" = true) : path_suffix p = ".gz" := by
  have h2 := path_name_endsWith_gz p h
  rw [pyEndsWith_iff] at h2
  obtain ⟨ws, hws⟩ := h2
  have hwsne : ws ≠ [] := by
    intro hnil
    rw [hnil, List.nil_append] at hws
    exact hname (String.ext hws.symm)
  exact path_suffix_eq_gz p ws hwsne (by rw [← hws])

/-- C9 counterexample: at the resolved backup path `"/tmp/.gz"` (a dotfile
named `.gz`) the two detection predicates disagree — `manage.py` treats the
file as compressed (`endswith('.gz')` is true) while `manage_plugins.py`
does not (`pathlib` gives a dotfile an empty `suffix`, and the path does not
end in `".sql.gz"`). -/
theorem restore_detection_counterexample :
    cmd_restore_is_compressed "/tmp/.gz" = true ∧
    plugins_is_compressed "/tmp/.gz" = false ∧
    ¬ plugins_is_compressed "/tmp/.gz" = cmd_restore_is_compressed "/tmp/.gz" := by
  refine ⟨?_, ?_, ?_⟩ <;> decide

/-- C9 as amended: `manage.py`'s test is equivalent to
`endswith('.gz')`; the plugin test implies it; and on every path whose
final component is not the bare dotfile `".gz"` the two predicates agree. -/
theorem restore_detection_agreement (p : String) :
    cmd_restore_is_compressed p = pyEndsWith p ".gz" ∧
    (plugins_is_compressed p = true → cmd_restore_is_compressed p = true) ∧
    (path_name p ≠ ".gz" →
      plugins_is_compressed p = cmd_restore_is_compressed p) := by
  refine ⟨endsWith_gz_or_sql_gz p, ?_, ?_⟩
  · intro h
    have hgz := plugins_is_compressed_endsWith p h
    simp only [cmd_restore_is_compressed, hgz, Bool.true_or]
  · intro hname
    cases hm : cmd_restore_is_compressed p with
    | true =>
      have hgz : pyEndsWith p ".gz" = true :=
        (endsWith_gz_or_sql_gz p).symm.trans hm
      have hsuf := path_suffix_of_endsWith_gz p hname hgz
      simp [plugins_is_compressed, hsuf]
    | false =>
      cases hp : plugins_is_compressed p with
      | false => rfl
      | true =>
        have hgz := plugins_is_compressed_endsWith p hp
        have : cmd_restore_is_compressed p = true := by
          simp only [cmd_restore_is_compressed, hgz, Bool.true_or]
        rw [this] at hm
        cases hm

/-!
## Concrete witnesses

Each witness applies its claim's theorem at a concrete input, discharging the
conditional parts there, so every conditional proved above is shown
non-vacuous.
-/

/-- C2 at the concrete paths `b.sql.gz` (compressed) and `b.sql`
(uncompressed). -/
theorem cmd_restore_compression_detection_witness :
    restore_shell_cmd "b.sql.gz" "/tmp/b.sql.gz" =
      "PGPASSWORD=\"${POSTGRES_PASSWORD}\" gunzip < " ++ "/tmp/b.sql.gz"
        ++ " | psql -U \"${POSTGRES_USER}\" -d \"${POSTGRES_DB}\"" ∧
    restore_shell_cmd "b.sql" "/tmp/b.sql" =
      "PGPASSWORD=\"${POSTGRES_PASSWORD}\" psql -U \"${POSTGRES_USER}\" -d \"${POSTGRES_DB}\" -f "
        ++ "/tmp/b.sql" :=
  ⟨(cmd_restore_compression_detection "b.sql.gz" "/tmp/b.sql.gz").2.1 (by decide),
   (cmd_restore_compression_detection "b.sql" "/tmp/b.sql").2.2 (by decide)⟩

/-- C8 at concrete `--output` paths that already carry the right
extension. -/
theorem cmd_backup_output_extension_witness :
    backup_output_path "db.gz" true = "db.gz" ∧
    backup_output_path "db.sql" false = "db.sql" :=
  ⟨(cmd_backup_output_extension "db.gz").2.2.1 (by decide),
   (cmd_backup_output_extension "db.sql").2.2.2 (by decide)⟩

/-- C9 (amended) at the concrete path `/data/backup.sql.gz`, where both
predicates report a compressed dump. -/
theorem restore_detection_agreement_witness :
    cmd_restore_is_compressed "/data/backup.sql.gz" = true ∧
    plugins_is_compressed "/data/backup.sql.gz" =
      cmd_restore_is_compressed "/data/backup.sql.gz" :=
  ⟨(restore_detection_agreement "/data/backup.sql.gz").2.1 (by decide),
   (restore_detection_agreement "/data/backup.sql.gz").2.2 (by decide)⟩

/-- C10 at the concrete declined answer `"n"` in the `dev` environment. -/
theorem cmd_restore_declined_aborts_witness :
    cmd_restore_commands "dev" false (UserAnswer.line "n") "/tmp/b.sql" = [] ∧
    plugins_cmd_restore_commands "dev" false (UserAnswer.line "n") "/tmp/b.sql" = [] :=
  ⟨(cmd_restore_declined_aborts "dev" "/tmp/b.sql" (UserAnswer.line "n")).2.2.1 (by decide),
   (cmd_restore_declined_aborts "dev" "/tmp/b.sql" (UserAnswer.line "n")).2.2.2 (by decide)⟩

end ManagePy
